import Mathlib

/-!
Verification of the communication base layer of `bluesky-queueserver-api`
(`bluesky_queueserver_api/comm_base.py`): the response check, the REST
method registry, request preparation, the exception classifiers of both
transports, and the polling wait primitive described in the design document.

Python values that appear in requests and responses are modelled by the
inductive type `PyValue`; Python truthiness and `str()` formatting are
reproduced explicitly where the source relies on them.
-/

/-- Model of the Python values flowing through the communication layer:
`None`, booleans, strings, integers and string-keyed mappings (dicts). -/
inductive PyValue where
  | pnone : PyValue
  | pbool (b : Bool) : PyValue
  | pstr (s : String) : PyValue
  | pint (n : Int) : PyValue
  | pmap (fields : List (String × PyValue)) : PyValue

/-- Python truthiness (`bool(v)`) for the modelled values: `None` is falsy,
a string is truthy iff non-empty, an integer iff non-zero, a dict iff
non-empty. -/
def PyValue.truthy : PyValue → Bool
  | .pnone => false
  | .pbool b => b
  | .pstr s => !s.isEmpty
  | .pint n => n != 0
  | .pmap fields => !fields.isEmpty

/-- `isinstance(v, Mapping)` for the modelled values. -/
def PyValue.isMapping : PyValue → Bool
  | .pmap _ => true
  | _ => false

/-- `d.get(key, default)` on a modelled value; returns `default` when the
value is not a mapping (the source only calls it on mappings). -/
def PyValue.get (v : PyValue) (key : String) (default : PyValue) : PyValue :=
  match v with
  | .pmap fields => (fields.lookup key).getD default
  | _ => default

mutual

/-- Python `repr()` of a modelled value (quote escaping inside strings is
not modelled; the keys and strings used by this layer contain none). -/
def pyRepr : PyValue → String
  | .pnone => "None"
  | .pbool true => "True"
  | .pbool false => "False"
  | .pstr s => "\x27" ++ s ++ "\x27"
  | .pint n => toString n
  | .pmap fields => "\x7b" ++ pyReprFields fields ++ "\x7d"

/-- Renders the entries of a dict the way Python `repr()` does. -/
def pyReprFields : List (String × PyValue) → String
  | [] => ""
  | (k, v) :: rest =>
    "\x27" ++ k ++ "\x27: " ++ pyRepr v ++
      (match rest with
       | [] => ""
       | _ => ", " ++ pyReprFields rest)

end

/-- Python `str()` of a modelled value: identical to `repr()` except that a
top-level string is rendered without quotes. -/
def pyStr : PyValue → String
  | .pstr s => s
  | v => pyRepr v

/-- A request, recorded by the dispatch layer as the pair of the logical
method name and the parameters (`{"method": method, "params": params}`). -/
structure ReqRecord where
  method : String
  params : PyValue

/-- Data carried by `RequestFailedError` (comm_base.py lines 80-87): the
original request, the full response, and the formatted message. -/
structure RequestFailedErrorData where
  request : ReqRecord
  response : PyValue
  msg : String

/-- `RequestFailedError.__init__`: the message is the response's `msg`
field when the response is a mapping, otherwise `str(response)`; an empty
message is replaced with a placeholder; the whole is given the
`Request failed: ` marker in front. -/
def mkRequestFailedError (request : ReqRecord) (response : PyValue) :
    RequestFailedErrorData :=
  let msg0 : PyValue :=
    if response.isMapping then response.get "msg" (.pstr "") else .pstr (pyStr response)
  let msg1 : PyValue := if msg0.truthy then msg0 else .pstr "(no error message)"
  ⟨request, response, "Request failed: " ++ pyStr msg1⟩

/-- `ReManagerAPI_Base._check_response` (comm_base.py lines 125-135):
when fail exceptions are enabled and the response is not a mapping or its
`success` field is falsy (default `True` when absent), raise
`RequestFailedError`; otherwise return normally. -/
def checkResponse (requestFailExceptions : Bool) (request : ReqRecord)
    (response : PyValue) : Except RequestFailedErrorData Unit :=
  if requestFailExceptions then
    if ¬ response.isMapping ∨ ¬ (response.get "success" (.pbool true)).truthy then
      .error (mkRequestFailedError request response)
    else
      .ok ()
  else
    .ok ()

/-- The REST method registry `rest_api_method_map` (comm_base.py lines
20-62): logical operation name mapped to (HTTP verb, endpoint path). -/
def rest_api_method_map : List (String × (String × String)) :=
  [ ("ping", ("GET", "/api/ping")),
    ("status", ("GET", "/api/status")),
    ("queue_start", ("POST", "/api/queue/start")),
    ("queue_stop", ("POST", "/api/queue/stop")),
    ("queue_stop_cancel", ("POST", "/api/queue/stop/cancel")),
    ("queue_get", ("GET", "/api/queue/get")),
    ("queue_clear", ("POST", "/api/queue/clear")),
    ("queue_mode_set", ("POST", "/api/queue/mode/set")),
    ("queue_item_add", ("POST", "/api/queue/item/add")),
    ("queue_item_add_batch", ("POST", "/api/queue/item/add/batch")),
    ("queue_item_get", ("GET", "/api/queue/item/get")),
    ("queue_item_update", ("POST", "/api/queue/item/update")),
    ("queue_item_remove", ("POST", "/api/queue/item/remove")),
    ("queue_item_remove_batch", ("POST", "/api/queue/item/remove/batch")),
    ("queue_item_move", ("POST", "/api/queue/item/move")),
    ("queue_item_move_batch", ("POST", "/api/queue/item/move/batch")),
    ("queue_item_execute", ("POST", "/api/queue/item/execute")),
    ("history_get", ("GET", "/api/history/get")),
    ("history_clear", ("POST", "/api/history/clear")),
    ("environment_open", ("POST", "/api/environment/open")),
    ("environment_close", ("POST", "/api/environment/close")),
    ("environment_destroy", ("POST", "/api/environment/destroy")),
    ("re_pause", ("POST", "/api/re/pause")),
    ("re_resume", ("POST", "/api/re/resume")),
    ("re_stop", ("POST", "/api/re/stop")),
    ("re_abort", ("POST", "/api/re/abort")),
    ("re_halt", ("POST", "/api/re/halt")),
    ("re_runs", ("POST", "/api/re/runs")),
    ("plans_allowed", ("GET", "/api/plans/allowed")),
    ("devices_allowed", ("GET", "/api/devices/allowed")),
    ("plans_existing", ("GET", "/api/plans/existing")),
    ("devices_existing", ("GET", "/api/devices/existing")),
    ("permissions_reload", ("POST", "/api/permissions/reload")),
    ("permissions_get", ("GET", "/api/permissions/get")),
    ("permissions_set", ("POST", "/api/permissions/set")),
    ("script_upload", ("POST", "/api/script/upload")),
    ("function_execute", ("POST", "/api/function/execute")),
    ("task_status", ("GET", "/api/task/status")),
    ("task_result", ("GET", "/api/task/result")),
    ("manager_stop", ("POST", "/api/manager/stop")),
    ("manager_kill", ("POST", "/api/test/manager/kill")) ]

/-- `ReManagerAPI_HTTP_Base._prepare_request` (comm_base.py lines 251-256):
an unknown method raises `KeyError` before anything else happens; a known
method yields its registered verb and endpoint and the payload, which is
`params or \x7b\x7d` (the empty dict whenever `params` is falsy, in
particular when it is `None`). -/
def prepareRequest (method : String) (params : PyValue) :
    Except String (String × String × PyValue) :=
  match rest_api_method_map.lookup method with
  | none => .error ("Unknown method " ++ pyRepr (.pstr method))
  | some (requestMethod, endpoint) =>
    .ok (requestMethod, endpoint, if params.truthy then params else .pmap [])

/-- A recorded httpx client response: its HTTP status code and body. -/
inductive Body where
  | empty : Body
  | json (v : PyValue) : Body
  | notJson (raw : String) : Body

/-- Python exceptions that escape the classifier instead of the intended
`ClientError`: `response.json()['detail']` succeeds only when the body
decodes to a JSON object with a `detail` key, otherwise it raises
`json.JSONDecodeError`, `KeyError` or `TypeError`; and the bare
`ClientError(exc)` call of the opaque branch raises `TypeError` itself,
because `httpx.HTTPStatusError.__init__` takes required keyword-only
`request`/`response` arguments that the call does not supply. -/
inductive CrashKind where
  | jsonDecodeError : CrashKind
  | keyError : CrashKind
  | typeError : CrashKind
  | typeErrorClientErrorInit : CrashKind

/-- The recorded client response object (`client_response`): status code
and content. -/
structure ClientResponse where
  status_code : Nat
  content : Body

/-- Truthiness of `client_response.content` (non-empty bytes). -/
def Body.nonEmpty : Body → Bool
  | .empty => false
  | _ => true

/-- `exc.response.json()['detail']` as the source performs it. -/
def extractDetail : Body → Except CrashKind PyValue
  | .empty => .error .jsonDecodeError
  | .notJson _ => .error .jsonDecodeError
  | .json (.pmap fields) =>
    match fields.lookup "detail" with
    | some d => .ok d
    | none => .error .keyError
  | .json _ => .error .typeError

/-- The httpx exceptions `_process_comm_exception` distinguishes, in the
order of its `except` clauses: `httpx.TimeoutException`, any other
`httpx.RequestError`, and `httpx.HTTPStatusError` (which carries the
request URL and the response). Each exception is represented together
with its `str()` rendering. -/
inductive HttpxExc where
  | timeoutException (msg : String) : HttpxExc
  | otherRequestError (msg : String) : HttpxExc
  | httpStatusError (msg : String) (requestUrl : String) (response : ClientResponse) : HttpxExc

/-- Data carried by `RequestTimeoutError` (comm_base.py lines 73-77): the
formatted message and the originating request. -/
structure RequestTimeoutErrorData where
  msg : String
  request : ReqRecord

/-- The exception the classifier raises in place of the caught one: a
`RequestTimeoutError`, a `RequestError`, or a `ClientError` identified by
its message. -/
inductive Classified where
  | timeoutErr (e : RequestTimeoutErrorData) : Classified
  | requestErr (msg : String) : Classified
  | clientErr (msg : String) : Classified

/-- `ReManagerAPI_HTTP_Base._process_comm_exception` (comm_base.py lines
263-288). A timeout becomes `RequestTimeoutError` with the
`Request timeout: ` marker and the `\x7b"method", "params"\x7d` record;
any other request error becomes `RequestError` with the
`HTTP request error: ` marker; a status error becomes a `ClientError`:
when the recorded client response is present and its status is below 500
the message is assembled from the status code, the decoded `detail` (the
empty string when the content is empty) and the request URL — the JSON
decoding and the `detail` lookup may themselves fail, in which case that
failure escapes instead. In the remaining cases (status 500 and above, or
no recorded client response) the source attempts `ClientError(exc)`, but
`ClientError` inherits `httpx.HTTPStatusError.__init__(message, *,
request, response)` with required keyword-only arguments that are not
passed, so the construction itself raises a `TypeError` which escapes in
place of the intended opaque `ClientError`. -/
def processCommExceptionHttp (method : String) (params : PyValue)
    (client_response : Option ClientResponse) (exc : HttpxExc) :
    Except CrashKind Classified :=
  match exc with
  | .timeoutException msg =>
    .ok (.timeoutErr ⟨"Request timeout: " ++ msg, ⟨method, params⟩⟩)
  | .otherRequestError msg =>
    .ok (.requestErr ("HTTP request error: " ++ msg))
  | .httpStatusError _msg url response =>
    match client_response with
    | some cr =>
      if cr.status_code < 500 then
        if cr.content.nonEmpty then
          match extractDetail response.content with
          | .ok d =>
            .ok (.clientErr (toString response.status_code ++ ": " ++ pyStr d ++ " " ++ url))
          | .error crash => .error crash
        else
          .ok (.clientErr (toString response.status_code ++ ": " ++ "" ++ " " ++ url))
      else
        .error .typeErrorClientErrorInit
    | none => .error .typeErrorClientErrorInit

/-- The exceptions reaching `ReManagerAPI_ZMQ_Base._process_comm_exception`:
`CommTimeoutError` or any other exception (re-raised unchanged by the bare
`raise`). -/
inductive ZmqExc where
  | commTimeoutError (msg : String) : ZmqExc
  | otherExc (msg : String) : ZmqExc

/-- Result of the 0MQ classifier: either the newly raised
`RequestTimeoutError` or the original exception propagating unchanged. -/
inductive ZmqClassified where
  | timeoutErr (e : RequestTimeoutErrorData) : ZmqClassified
  | reraised (msg : String) : ZmqClassified

/-- `ReManagerAPI_ZMQ_Base._process_comm_exception` (comm_base.py lines
208-212): a `CommTimeoutError` is replaced by `RequestTimeoutError` built
from the exception text and the `\x7b"method", "params"\x7d` record; any
other exception propagates unchanged. -/
def processCommExceptionZmq (method : String) (params : PyValue) :
    ZmqExc → ZmqClassified
  | .commTimeoutError msg =>
    .timeoutErr ⟨"Request timeout: " ++ msg, ⟨method, params⟩⟩
  | .otherExc msg => .reraised msg

/-- Outcome of one transport call as seen by the dispatcher: either a
decoded response, or a raised httpx exception together with whatever
client response object had been recorded by then. -/
inductive TransportOutcome where
  | ok (resp : PyValue) : TransportOutcome
  | exc (client_response : Option ClientResponse) (e : HttpxExc) : TransportOutcome

/-- Everything a `send` call can end in: a returned response, the
`KeyError` of an unknown method, a raised `RequestFailedError`, a raised
classified communication error, or an escaped exception from the detail
extraction inside the classifier. -/
inductive SendResult where
  | ok (resp : PyValue) : SendResult
  | unknownMethod (msg : String) : SendResult
  | failed (e : RequestFailedErrorData) : SendResult
  | commError (c : Classified) : SendResult
  | crashed (k : CrashKind) : SendResult

/-- Modelled from the spec: the Request Dispatcher `send` orchestration of
§4.5 — the concrete glue lives in the `comm_threads`/`comm_asyncio`
modules, which are not part of the sources examined here. Steps in order:
resolve the method via the registry (an unknown method fails fast, before
the transport is invoked); call the transport; hand any raised transport
condition to the error classifier; otherwise check the decoded response
for `success == false` and either raise `RequestFailedError` or return
the response, according to the fail-exceptions toggle. -/
def sendHttp (requestFailExceptions : Bool)
    (transport : String → String → PyValue → TransportOutcome)
    (method : String) (params : PyValue) : SendResult :=
  match prepareRequest method params with
  | .error msg => .unknownMethod msg
  | .ok (verb, path, payload) =>
    match transport verb path payload with
    | .exc cr e =>
      match processCommExceptionHttp method params cr e with
      | .ok c => .commError c
      | .error k => .crashed k
    | .ok resp =>
      match checkResponse requestFailExceptions ⟨method, params⟩ resp with
      | .error e => .failed e
      | .ok () => .ok resp

/-- Terminal states of the Wait Monitor. -/
inductive WaitOutcome where
  | completed : WaitOutcome
  | timedOut : WaitOutcome
  | cancelledOut : WaitOutcome
deriving DecidableEq

/-- Modelled from the spec: the Wait Monitor poll loop of §4.7 — the wait
primitive is not part of the sources examined here. Time is discretised
into poll ticks; at each tick the loop checks the cancel flag (once per
tick), then the predicate (completing the instant it holds), then the
deadline (`now >= deadline` with the predicate still false times out);
otherwise it sleeps for one polling period and polls again. Returns the
terminal state together with the tick at which it was reached. -/
def waitFrom (pred can : Nat → Bool) (deadline : Nat) (t : Nat) :
    WaitOutcome × Nat :=
  if can t then (.cancelledOut, t)
  else if pred t then (.completed, t)
  else if deadline ≤ t then (.timedOut, t)
  else waitFrom pred can deadline (t + 1)
termination_by deadline - t
decreasing_by omega

/-- C7: the REST method registry maps `status`, `queue_start`,
`queue_item_add`, `queue_item_move_batch` and `task_result` to exactly the
stated verb/path pairs, and also contains the test-only `manager_kill`
route. -/
theorem claim_C7_rest_registry :
    rest_api_method_map.lookup "status" = some ("GET", "/api/status") ∧
    rest_api_method_map.lookup "queue_start" = some ("POST", "/api/queue/start") ∧
    rest_api_method_map.lookup "queue_item_add" = some ("POST", "/api/queue/item/add") ∧
    rest_api_method_map.lookup "queue_item_move_batch" =
      some ("POST", "/api/queue/item/move/batch") ∧
    rest_api_method_map.lookup "task_result" = some ("GET", "/api/task/result") ∧
    rest_api_method_map.lookup "manager_kill" = some ("POST", "/api/test/manager/kill") := by
  refine ⟨?_, ?_, ?_, ?_, ?_, ?_⟩ <;> rfl

/-- C8: the 0MQ classifier turns every caught `CommTimeoutError` into a
`RequestTimeoutError` whose message carries the `Request timeout: ` marker
in front of the original text and whose request attribute is the
`\x7b"method", "params"\x7d` record of the failed call. -/
theorem claim_C8_zmq_timeout (method : String) (params : PyValue) (msg : String) :
    processCommExceptionZmq method params (.commTimeoutError msg) =
      .timeoutErr ⟨"Request timeout: " ++ msg, ⟨method, params⟩⟩ := rfl

/-- C2: a mapping response without a `success` field passes the response
check for either value of the toggle, and `send` hands such a response to
the caller unchanged. -/
theorem claim_C2_missing_success (b : Bool) (request : ReqRecord)
    (fields : List (String × PyValue)) (h : fields.lookup "success" = none) :
    checkResponse b request (.pmap fields) = .ok () ∧
    (∀ (transport : String → String → PyValue → TransportOutcome)
        (method verb path : String) (params : PyValue),
        rest_api_method_map.lookup method = some (verb, path) →
        transport verb path (if params.truthy then params else .pmap []) =
          .ok (.pmap fields) →
        sendHttp b transport method params = .ok (.pmap fields)) := by
  have hchk : checkResponse b request (.pmap fields) = .ok () := by
    cases b with
    | false => rfl
    | true =>
      simp only [checkResponse, if_true]
      rw [if_neg]
      simp [PyValue.isMapping, PyValue.get, h, PyValue.truthy]
  refine ⟨hchk, ?_⟩
  intro transport method verb path params hm ht
  have hchk2 : checkResponse b ⟨method, params⟩ (.pmap fields) = .ok () := by
    cases b with
    | false => rfl
    | true =>
      simp only [checkResponse, if_true]
      rw [if_neg]
      simp [PyValue.isMapping, PyValue.get, h, PyValue.truthy]
  simp only [sendHttp, prepareRequest, hm, ht, hchk2]

/-- `str()` of a string value is the string itself. -/
theorem pyStr_pstr (s : String) : pyStr (.pstr s) = s := rfl

/-- The message of a `RequestFailedError` built from a non-mapping
response: the `str()` of the response, or the placeholder when empty. -/
theorem mkRequestFailedError_non_mapping (request : ReqRecord)
    (response : PyValue) (h : response.isMapping = false) :
    (mkRequestFailedError request response).msg =
      "Request failed: " ++
        (if pyStr response = "" then "(no error message)" else pyStr response) := by
  unfold mkRequestFailedError
  rw [h]
  simp only [Bool.false_eq_true, if_false]
  by_cases hempty : pyStr response = ""
  · rw [if_pos hempty, hempty]
    rfl
  · rw [if_neg hempty]
    have htr : (PyValue.pstr (pyStr response)).truthy = true := by
      have hne : (pyStr response).isEmpty = false := by
        rw [← Bool.not_eq_true]
        exact fun hh => hempty ((String.isEmpty_iff _).mp hh)
      simp [PyValue.truthy, hne]
    rw [if_pos htr, pyStr_pstr]

/-- C10: a non-mapping response makes the check raise `RequestFailedError`
whose message is `Request failed: ` followed by the `str()` of the
response, or by the placeholder when that string is empty — and with the
toggle off the check never raises, whatever the response is. -/
theorem claim_C10_non_mapping (request : ReqRecord) (response : PyValue) :
    (response.isMapping = false →
      checkResponse true request response =
        .error (mkRequestFailedError request response) ∧
      (mkRequestFailedError request response).msg =
        "Request failed: " ++
          (if pyStr response = "" then "(no error message)" else pyStr response)) ∧
    checkResponse false request response = .ok () := by
  constructor
  · intro h
    constructor
    · simp only [checkResponse, if_true]
      rw [if_pos]
      exact Or.inl (by simp [h])
    · exact mkRequestFailedError_non_mapping request response h
  · rfl

/-- C2 witness: a concrete status-style response without `success` passes
the check with exceptions enabled. -/
theorem claim_C2_missing_success_witness :
    checkResponse true ⟨"status", PyValue.pnone⟩
      (.pmap [("msg", .pstr "ok")]) = .ok () :=
  (claim_C2_missing_success true ⟨"status", PyValue.pnone⟩
    [("msg", .pstr "ok")] (by rfl)).1

/-- C10 witness: a concrete raw-string response raises with the string
embedded in the message when the toggle is on, and passes when it is off. -/
theorem claim_C10_non_mapping_witness :
    (checkResponse true ⟨"status", PyValue.pnone⟩ (.pstr "Server error") =
        .error (mkRequestFailedError ⟨"status", PyValue.pnone⟩ (.pstr "Server error")) ∧
      (mkRequestFailedError ⟨"status", PyValue.pnone⟩ (.pstr "Server error")).msg =
        "Request failed: " ++
          (if pyStr (.pstr "Server error") = "" then "(no error message)"
           else pyStr (.pstr "Server error"))) ∧
    checkResponse false ⟨"status", PyValue.pnone⟩ (.pstr "Server error") = .ok () :=
  ⟨(claim_C10_non_mapping ⟨"status", PyValue.pnone⟩ (.pstr "Server error")).1 (by rfl),
   (claim_C10_non_mapping ⟨"status", PyValue.pnone⟩ (.pstr "Server error")).2⟩

/-- C1: for a mapping response whose `success` field is `False`, `send`
with the toggle on raises `RequestFailedError` carrying the original
request and the full response, and `send` with the toggle off returns the
response unmodified. -/
theorem claim_C1_success_false
    (transport : String → String → PyValue → TransportOutcome)
    (method verb path : String) (params : PyValue)
    (fields : List (String × PyValue))
    (hm : rest_api_method_map.lookup method = some (verb, path))
    (ht : transport verb path (if params.truthy then params else .pmap []) =
      .ok (.pmap fields))
    (hs : fields.lookup "success" = some (.pbool false)) :
    (sendHttp true transport method params =
        .failed (mkRequestFailedError ⟨method, params⟩ (.pmap fields)) ∧
      (mkRequestFailedError ⟨method, params⟩ (.pmap fields)).request =
        ⟨method, params⟩ ∧
      (mkRequestFailedError ⟨method, params⟩ (.pmap fields)).response =
        .pmap fields) ∧
    sendHttp false transport method params = .ok (.pmap fields) := by
  have hchk : checkResponse true ⟨method, params⟩ (.pmap fields) =
      .error (mkRequestFailedError ⟨method, params⟩ (.pmap fields)) := by
    simp only [checkResponse, if_true]
    rw [if_pos]
    exact Or.inr (by simp [PyValue.get, hs, PyValue.truthy])
  refine ⟨⟨?_, rfl, rfl⟩, ?_⟩
  · simp only [sendHttp, prepareRequest, hm, ht, hchk]
  · simp only [sendHttp, prepareRequest, hm, ht]
    rfl

/-- C1 witness: a concrete rejected `queue_start` call raises with the
toggle on and returns the flagged response with the toggle off. -/
theorem claim_C1_success_false_witness :
    (sendHttp true
        (fun _ _ _ => .ok (.pmap [("success", .pbool false), ("msg", .pstr "bad")]))
        "queue_start" PyValue.pnone =
      .failed (mkRequestFailedError ⟨"queue_start", PyValue.pnone⟩
        (.pmap [("success", .pbool false), ("msg", .pstr "bad")])) ∧
      (mkRequestFailedError ⟨"queue_start", PyValue.pnone⟩
        (.pmap [("success", .pbool false), ("msg", .pstr "bad")])).request =
        ⟨"queue_start", PyValue.pnone⟩ ∧
      (mkRequestFailedError ⟨"queue_start", PyValue.pnone⟩
        (.pmap [("success", .pbool false), ("msg", .pstr "bad")])).response =
        .pmap [("success", .pbool false), ("msg", .pstr "bad")]) ∧
    sendHttp false
        (fun _ _ _ => .ok (.pmap [("success", .pbool false), ("msg", .pstr "bad")]))
        "queue_start" PyValue.pnone =
      .ok (.pmap [("success", .pbool false), ("msg", .pstr "bad")]) :=
  claim_C1_success_false
    (fun _ _ _ => .ok (.pmap [("success", .pbool false), ("msg", .pstr "bad")]))
    "queue_start" "POST" "/api/queue/start" PyValue.pnone
    [("success", .pbool false), ("msg", .pstr "bad")] (by rfl) (by rfl) (by rfl)

/-- C3: an unknown method makes `send` fail with the unknown-method
`KeyError` whatever the transport does (no network call can influence the
result); a registered method resolves to its verb/path pair with the
payload `params or \x7b\x7d`, and a `None` params yields the empty
payload dict. -/
theorem claim_C3_method_resolution :
    (∀ (b : Bool) (transport : String → String → PyValue → TransportOutcome)
        (method : String) (params : PyValue),
        rest_api_method_map.lookup method = none →
        sendHttp b transport method params =
          .unknownMethod ("Unknown method \x27" ++ method ++ "\x27")) ∧
    (∀ (method verb path : String) (params : PyValue),
        rest_api_method_map.lookup method = some (verb, path) →
        prepareRequest method params =
          .ok (verb, path, if params.truthy then params else .pmap [])) ∧
    (∀ (method verb path : String),
        rest_api_method_map.lookup method = some (verb, path) →
        prepareRequest method .pnone = .ok (verb, path, .pmap [])) := by
  refine ⟨?_, ?_, ?_⟩
  · intro b transport method params hm
    simp only [sendHttp, prepareRequest, hm, pyRepr]
    simp [← String.append_assoc]
  · intro method verb path params hm
    simp only [prepareRequest, hm]
  · intro method verb path hm
    simp only [prepareRequest, hm]
    rfl

/-- C3 witness: a concrete unknown method fails identically under two
different transports, and concrete known methods resolve as registered. -/
theorem claim_C3_method_resolution_witness :
    (sendHttp true (fun _ _ _ => .ok (.pmap [("success", .pbool true)]))
        "no_such_method" PyValue.pnone =
      .unknownMethod ("Unknown method \x27" ++ "no_such_method" ++ "\x27")) ∧
    (sendHttp true (fun _ _ _ => .exc none (.timeoutException "t"))
        "no_such_method" PyValue.pnone =
      .unknownMethod ("Unknown method \x27" ++ "no_such_method" ++ "\x27")) ∧
    prepareRequest "queue_item_add"
        (.pmap [("item", .pstr "plan")]) =
      .ok ("POST", "/api/queue/item/add",
        if (PyValue.pmap [("item", .pstr "plan")]).truthy
        then .pmap [("item", .pstr "plan")] else .pmap []) ∧
    prepareRequest "status" .pnone = .ok ("GET", "/api/status", .pmap []) :=
  ⟨claim_C3_method_resolution.1 true _ "no_such_method" PyValue.pnone (by rfl),
   claim_C3_method_resolution.1 true _ "no_such_method" PyValue.pnone (by rfl),
   claim_C3_method_resolution.2.1 "queue_item_add" "POST" "/api/queue/item/add"
     (.pmap [("item", .pstr "plan")]) (by rfl),
   claim_C3_method_resolution.2.2 "status" "GET" "/api/status" (by rfl)⟩

/-- C4 counterexample: two status errors that do not become `ClientError`.
A 404 whose recorded response body is a JSON object without a `detail`
key makes the `['detail']` lookup raise a `KeyError` that escapes; and a
502 reaches the `ClientError(exc)` call, whose construction raises a
`TypeError` (missing required keyword-only `request`/`response`) that
escapes in place of the opaque `ClientError`. -/
theorem claim_C4_counterexample :
    processCommExceptionHttp "status" .pnone
      (some ⟨404, .json (.pmap [("msg", .pstr "not found")])⟩)
      (.httpStatusError "Client error 404"
        "http://localhost:60610/api/status"
        ⟨404, .json (.pmap [("msg", .pstr "not found")])⟩) =
      .error .keyError ∧
    processCommExceptionHttp "status" .pnone
      (some ⟨502, .empty⟩)
      (.httpStatusError "Server error 502"
        "http://localhost:60610/api/status" ⟨502, .empty⟩) =
      .error .typeErrorClientErrorInit := ⟨rfl, rfl⟩

/-- C4 amended: every caught failure reaches exactly one of the three
handlers, checked in this order. A timeout becomes `RequestTimeoutError`
carrying the originating request; any other request error becomes
`RequestError`; a status error becomes `ClientError` — with the status
code, decoded detail (empty for an empty body) and request URL embedded
in the message — exactly when the recorded response is present, its
status is below 500, and its body is empty or a JSON object with a
`detail` key; for every other non-empty body the detail extraction
escapes with its own decode/key/type error; and for status 500 and
above, or an absent recorded response, the `ClientError(exc)`
construction itself escapes with a `TypeError` instead of surfacing a
`ClientError`. -/
theorem claim_C4_classification (method : String) (params : PyValue)
    (cr : Option ClientResponse) :
    (∀ msg, processCommExceptionHttp method params cr (.timeoutException msg) =
      .ok (.timeoutErr ⟨"Request timeout: " ++ msg, ⟨method, params⟩⟩)) ∧
    (∀ msg, processCommExceptionHttp method params cr (.otherRequestError msg) =
      .ok (.requestErr ("HTTP request error: " ++ msg))) ∧
    (∀ (msg url : String) (resp : ClientResponse),
        resp.status_code < 500 → resp.content = .empty →
        processCommExceptionHttp method params (some resp)
            (.httpStatusError msg url resp) =
          .ok (.clientErr
            (toString resp.status_code ++ ": " ++ "" ++ " " ++ url))) ∧
    (∀ (msg url : String) (resp : ClientResponse)
        (fields : List (String × PyValue)) (d : PyValue),
        resp.status_code < 500 →
        resp.content = .json (.pmap fields) →
        fields.lookup "detail" = some d →
        processCommExceptionHttp method params (some resp)
            (.httpStatusError msg url resp) =
          .ok (.clientErr
            (toString resp.status_code ++ ": " ++ pyStr d ++ " " ++ url))) ∧
    (∀ (msg url : String) (resp : ClientResponse) (k : CrashKind),
        resp.status_code < 500 →
        resp.content.nonEmpty = true →
        extractDetail resp.content = .error k →
        processCommExceptionHttp method params (some resp)
            (.httpStatusError msg url resp) = .error k) ∧
    (∀ (msg url : String) (resp : ClientResponse),
        500 ≤ resp.status_code →
        processCommExceptionHttp method params (some resp)
            (.httpStatusError msg url resp) =
          .error .typeErrorClientErrorInit) ∧
    (∀ (msg url : String) (resp : ClientResponse),
        processCommExceptionHttp method params none
            (.httpStatusError msg url resp) =
          .error .typeErrorClientErrorInit) := by
  refine ⟨fun msg => rfl, fun msg => rfl, ?_, ?_, ?_, ?_, fun msg url resp => rfl⟩
  · intro msg url resp hlt hcontent
    simp only [processCommExceptionHttp, if_pos hlt, hcontent, Body.nonEmpty,
      Bool.false_eq_true, if_false]
  · intro msg url resp fields d hlt hcontent hdetail
    simp only [processCommExceptionHttp, if_pos hlt, hcontent, Body.nonEmpty,
      if_true, extractDetail, hdetail]
  · intro msg url resp k hlt hne hext
    simp only [processCommExceptionHttp, if_pos hlt, hne, if_true, hext]
  · intro msg url resp hge
    have hnot : ¬ resp.status_code < 500 := by omega
    simp only [processCommExceptionHttp, if_neg hnot]

/-- C4 witness: concrete instances of every case — both classifications
that raise a new typed error, the detailed `ClientError` for an empty
body and for the 404-with-JSON-detail scenario, an escaping extraction
failure, and the escaping `TypeError` of the 500-and-above and
absent-response paths. -/
theorem claim_C4_classification_witness :
    (processCommExceptionHttp "status" PyValue.pnone none
        (.timeoutException "timed out") =
      .ok (.timeoutErr ⟨"Request timeout: " ++ "timed out",
        ⟨"status", PyValue.pnone⟩⟩)) ∧
    (processCommExceptionHttp "status" PyValue.pnone none
        (.otherRequestError "connection refused") =
      .ok (.requestErr ("HTTP request error: " ++ "connection refused"))) ∧
    (processCommExceptionHttp "status" PyValue.pnone (some ⟨404, .empty⟩)
        (.httpStatusError "m" "http://localhost:60610/api/w"
          ⟨404, .empty⟩) =
      .ok (.clientErr (toString 404 ++ ": " ++ "" ++ " " ++
        "http://localhost:60610/api/w"))) ∧
    (processCommExceptionHttp "status" PyValue.pnone
        (some ⟨404, .json (.pmap [("detail", .pstr "Not Found")])⟩)
        (.httpStatusError "m" "http://localhost:60610/api/status"
          ⟨404, .json (.pmap [("detail", .pstr "Not Found")])⟩) =
      .ok (.clientErr (toString 404 ++ ": " ++ pyStr (.pstr "Not Found") ++ " " ++
        "http://localhost:60610/api/status"))) ∧
    (processCommExceptionHttp "status" PyValue.pnone
        (some ⟨404, .json (.pstr "oops")⟩)
        (.httpStatusError "m" "http://localhost:60610/api/x"
          ⟨404, .json (.pstr "oops")⟩) =
      .error .typeError) ∧
    (processCommExceptionHttp "status" PyValue.pnone (some ⟨501, .empty⟩)
        (.httpStatusError "m" "http://localhost:60610/api/y"
          ⟨501, .empty⟩) =
      .error .typeErrorClientErrorInit) ∧
    (processCommExceptionHttp "status" PyValue.pnone none
        (.httpStatusError "m" "http://localhost:60610/api/z"
          ⟨404, .empty⟩) =
      .error .typeErrorClientErrorInit) :=
  ⟨(claim_C4_classification "status" PyValue.pnone none).1 "timed out",
   (claim_C4_classification "status" PyValue.pnone none).2.1 "connection refused",
   (claim_C4_classification "status" PyValue.pnone
       (some ⟨404, .empty⟩)).2.2.1
     "m" "http://localhost:60610/api/w" ⟨404, .empty⟩ (by decide) rfl,
   (claim_C4_classification "status" PyValue.pnone
       (some ⟨404, .json (.pmap [("detail", .pstr "Not Found")])⟩)).2.2.2.1
     "m" "http://localhost:60610/api/status"
     ⟨404, .json (.pmap [("detail", .pstr "Not Found")])⟩
     [("detail", .pstr "Not Found")] (.pstr "Not Found")
     (by decide) rfl rfl,
   (claim_C4_classification "status" PyValue.pnone
       (some ⟨404, .json (.pstr "oops")⟩)).2.2.2.2.1
     "m" "http://localhost:60610/api/x" ⟨404, .json (.pstr "oops")⟩
     .typeError (by decide) rfl rfl,
   (claim_C4_classification "status" PyValue.pnone
       (some ⟨501, .empty⟩)).2.2.2.2.2.1
     "m" "http://localhost:60610/api/y" ⟨501, .empty⟩ (by decide),
   (claim_C4_classification "status" PyValue.pnone none).2.2.2.2.2.2
     "m" "http://localhost:60610/api/z" ⟨404, .empty⟩⟩

/-- C6 counterexample: two inputs on which the claim fails. A 403 whose
recorded response body is non-empty but not JSON makes the
detail-extraction step fail with a JSON decode error instead of producing
a `ClientError`; and a 503 is not surfaced opaquely: the
`ClientError(exc)` construction raises a `TypeError` (missing required
keyword-only `request`/`response`) that escapes instead. -/
theorem claim_C6_counterexample :
    processCommExceptionHttp "queue_start" .pnone
      (some ⟨403, .notJson "<html>Forbidden</html>"⟩)
      (.httpStatusError "Client error 403"
        "http://localhost:60610/api/queue/start"
        ⟨403, .notJson "<html>Forbidden</html>"⟩) =
      .error .jsonDecodeError ∧
    processCommExceptionHttp "queue_start" .pnone
      (some ⟨503, .empty⟩)
      (.httpStatusError "Server error 503"
        "http://localhost:60610/api/queue/start" ⟨503, .empty⟩) =
      .error .typeErrorClientErrorInit := ⟨rfl, rfl⟩

/-- C6 amended: for a status error with the recorded response present and
status below 500, classification produces a `ClientError` with empty
detail for an empty body and with the decoded detail for a JSON object
holding a `detail` key; for a non-empty non-JSON body or a JSON object
without `detail` the extraction step escapes with a decode/key error; for
status 500 and above, or when the recorded response is absent, no
`ClientError` is surfaced at all: the `ClientError(exc)` construction
itself escapes with a `TypeError` because the required keyword-only
`request`/`response` arguments of `httpx.HTTPStatusError.__init__` are
not passed. -/
theorem claim_C6_detail_extraction (method : String) (params : PyValue)
    (msg url : String) (resp : ClientResponse) :
    (resp.status_code < 500 → resp.content = .empty →
      processCommExceptionHttp method params (some resp)
          (.httpStatusError msg url resp) =
        .ok (.clientErr (toString resp.status_code ++ ": " ++ "" ++ " " ++ url))) ∧
    (∀ (fields : List (String × PyValue)) (d : PyValue),
      resp.status_code < 500 → resp.content = .json (.pmap fields) →
      fields.lookup "detail" = some d →
      processCommExceptionHttp method params (some resp)
          (.httpStatusError msg url resp) =
        .ok (.clientErr (toString resp.status_code ++ ": " ++ pyStr d ++ " " ++ url))) ∧
    (∀ raw : String, resp.status_code < 500 → resp.content = .notJson raw →
      processCommExceptionHttp method params (some resp)
          (.httpStatusError msg url resp) = .error .jsonDecodeError) ∧
    (∀ fields : List (String × PyValue),
      resp.status_code < 500 → resp.content = .json (.pmap fields) →
      fields.lookup "detail" = none →
      processCommExceptionHttp method params (some resp)
          (.httpStatusError msg url resp) = .error .keyError) ∧
    (500 ≤ resp.status_code →
      processCommExceptionHttp method params (some resp)
          (.httpStatusError msg url resp) = .error .typeErrorClientErrorInit) ∧
    (processCommExceptionHttp method params none
        (.httpStatusError msg url resp) = .error .typeErrorClientErrorInit) := by
  refine ⟨?_, ?_, ?_, ?_, ?_, rfl⟩
  · intro hlt hcontent
    simp only [processCommExceptionHttp, if_pos hlt, hcontent, Body.nonEmpty,
      Bool.false_eq_true, if_false]
  · intro fields d hlt hcontent hdetail
    simp only [processCommExceptionHttp, if_pos hlt, hcontent, Body.nonEmpty,
      if_true, extractDetail, hdetail]
  · intro raw hlt hcontent
    simp only [processCommExceptionHttp, if_pos hlt, hcontent, Body.nonEmpty,
      if_true, extractDetail]
  · intro fields hlt hcontent hdetail
    simp only [processCommExceptionHttp, if_pos hlt, hcontent, Body.nonEmpty,
      if_true, extractDetail, hdetail]
  · intro hge
    have : ¬ resp.status_code < 500 := by omega
    simp only [processCommExceptionHttp, if_neg this]

/-- C6 witness: the six cases at concrete inputs. -/
theorem claim_C6_detail_extraction_witness :
    (processCommExceptionHttp "status" PyValue.pnone (some ⟨404, .empty⟩)
        (.httpStatusError "m" "http://u/a" ⟨404, .empty⟩) =
      .ok (.clientErr (toString 404 ++ ": " ++ "" ++ " " ++ "http://u/a"))) ∧
    (processCommExceptionHttp "status" PyValue.pnone
        (some ⟨422, .json (.pmap [("detail", .pstr "bad item")])⟩)
        (.httpStatusError "m" "http://u/b"
          ⟨422, .json (.pmap [("detail", .pstr "bad item")])⟩) =
      .ok (.clientErr (toString 422 ++ ": " ++ pyStr (.pstr "bad item") ++ " " ++
        "http://u/b"))) ∧
    (processCommExceptionHttp "status" PyValue.pnone
        (some ⟨400, .notJson "plain text"⟩)
        (.httpStatusError "m" "http://u/c" ⟨400, .notJson "plain text"⟩) =
      .error .jsonDecodeError) ∧
    (processCommExceptionHttp "status" PyValue.pnone
        (some ⟨400, .json (.pmap [])⟩)
        (.httpStatusError "m" "http://u/d" ⟨400, .json (.pmap [])⟩) =
      .error .keyError) ∧
    (processCommExceptionHttp "status" PyValue.pnone
        (some ⟨500, .json (.pmap [("detail", .pstr "boom")])⟩)
        (.httpStatusError "server error" "http://u/e"
          ⟨500, .json (.pmap [("detail", .pstr "boom")])⟩) =
      .error .typeErrorClientErrorInit) ∧
    (processCommExceptionHttp "status" PyValue.pnone none
        (.httpStatusError "opq" "http://u/f" ⟨404, .empty⟩) =
      .error .typeErrorClientErrorInit) :=
  ⟨(claim_C6_detail_extraction "status" PyValue.pnone "m" "http://u/a"
      ⟨404, .empty⟩).1 (by decide) rfl,
   (claim_C6_detail_extraction "status" PyValue.pnone "m" "http://u/b"
      ⟨422, .json (.pmap [("detail", .pstr "bad item")])⟩).2.1
     [("detail", .pstr "bad item")] (.pstr "bad item") (by decide) rfl rfl,
   (claim_C6_detail_extraction "status" PyValue.pnone "m" "http://u/c"
      ⟨400, .notJson "plain text"⟩).2.2.1 "plain text" (by decide) rfl,
   (claim_C6_detail_extraction "status" PyValue.pnone "m" "http://u/d"
      ⟨400, .json (.pmap [])⟩).2.2.2.1 [] (by decide) rfl rfl,
   (claim_C6_detail_extraction "status" PyValue.pnone "server error" "http://u/e"
      ⟨500, .json (.pmap [("detail", .pstr "boom")])⟩).2.2.2.2.1 (by decide),
   (claim_C6_detail_extraction "status" PyValue.pnone "opq" "http://u/f"
      ⟨404, .empty⟩).2.2.2.2.2⟩

/-- C5: the fail-exceptions toggle does not influence the classified
communication failures (timeouts, transport errors, HTTP status errors)
nor the escaped extraction failures — any such outcome is identical under
both toggle values — and a `RequestFailedError` can only arise with the
toggle on. -/
theorem claim_C5_toggle_scope (b₁ b₂ : Bool)
    (transport : String → String → PyValue → TransportOutcome)
    (method : String) (params : PyValue) :
    (∀ c, sendHttp b₁ transport method params = .commError c →
      sendHttp b₂ transport method params = .commError c) ∧
    (∀ k, sendHttp b₁ transport method params = .crashed k →
      sendHttp b₂ transport method params = .crashed k) ∧
    (∀ e, sendHttp b₁ transport method params = .failed e → b₁ = true) := by
  cases hp : prepareRequest method params with
  | error m =>
    refine ⟨?_, ?_, ?_⟩ <;> intro x h <;> simp only [sendHttp, hp] at h <;>
      exact SendResult.noConfusion h
  | ok vpp =>
    obtain ⟨verb, path, payload⟩ := vpp
    cases ht : transport verb path payload with
    | exc cr e =>
      cases hc : processCommExceptionHttp method params cr e with
      | ok c₀ =>
        refine ⟨?_, ?_, ?_⟩ <;> intro x h <;>
          simp only [sendHttp, hp, ht, hc] at h ⊢
        · exact h
        · exact SendResult.noConfusion h
        · exact SendResult.noConfusion h
      | error k₀ =>
        refine ⟨?_, ?_, ?_⟩ <;> intro x h <;>
          simp only [sendHttp, hp, ht, hc] at h ⊢
        · exact SendResult.noConfusion h
        · exact h
        · exact SendResult.noConfusion h
    | ok resp =>
      refine ⟨?_, ?_, ?_⟩ <;> intro x h <;> simp only [sendHttp, hp, ht] at h
      · cases hck : checkResponse b₁ ⟨method, params⟩ resp with
        | error e₀ => rw [hck] at h; exact SendResult.noConfusion h
        | ok u => cases u; rw [hck] at h; exact SendResult.noConfusion h
      · cases hck : checkResponse b₁ ⟨method, params⟩ resp with
        | error e₀ => rw [hck] at h; exact SendResult.noConfusion h
        | ok u => cases u; rw [hck] at h; exact SendResult.noConfusion h
      · cases b₁ with
        | true => rfl
        | false =>
          have hok : checkResponse false ⟨method, params⟩ resp = .ok () := rfl
          rw [hok] at h
          exact SendResult.noConfusion h

/-- C5 witness: a timeout raised through a transport failure is the same
outcome under both toggle values, and a concrete `RequestFailedError`
instance indeed occurred with the toggle on. -/
theorem claim_C5_toggle_scope_witness :
    (sendHttp false (fun _ _ _ => .exc none (.timeoutException "t"))
        "status" PyValue.pnone =
      .commError (.timeoutErr ⟨"Request timeout: " ++ "t",
        ⟨"status", PyValue.pnone⟩⟩)) ∧
    true = true :=
  ⟨(claim_C5_toggle_scope true false
      (fun _ _ _ => .exc none (.timeoutException "t")) "status" PyValue.pnone).1
      (.timeoutErr ⟨"Request timeout: " ++ "t", ⟨"status", PyValue.pnone⟩⟩)
      (by rfl),
   (claim_C5_toggle_scope true false
      (fun _ _ _ => .ok (.pmap [("success", .pbool false)]))
      "status" PyValue.pnone).2.2
     (mkRequestFailedError ⟨"status", PyValue.pnone⟩
       (.pmap [("success", .pbool false)]))
     (by rfl)⟩

/-- One unfolding of the wait loop. -/
theorem waitFrom_step (pred can : Nat → Bool) (deadline t : Nat) :
    waitFrom pred can deadline t =
      if can t then (.cancelledOut, t)
      else if pred t then (.completed, t)
      else if deadline ≤ t then (.timedOut, t)
      else waitFrom pred can deadline (t + 1) := by
  rw [waitFrom]

/-- When the predicate never holds and nobody cancels, the wait loop runs
to the deadline and times out exactly there. -/
theorem waitFrom_times_out (pred can : Nat → Bool)
    (hp : ∀ s, pred s = false) (hc : ∀ s, can s = false) (deadline : Nat) :
    ∀ t, waitFrom pred can deadline t = (.timedOut, max t deadline) := by
  have H : ∀ (fuel t : Nat), deadline - t ≤ fuel →
      waitFrom pred can deadline t = (.timedOut, max t deadline) := by
    intro fuel
    induction fuel with
    | zero =>
      intro t hfuel
      have hle : deadline ≤ t := by omega
      rw [waitFrom_step, hc, hp]
      simp only [Bool.false_eq_true, if_false, if_pos hle]
      have : max t deadline = t := Nat.max_eq_left hle
      rw [this]
    | succ n ih =>
      intro t hfuel
      rw [waitFrom_step, hc, hp]
      simp only [Bool.false_eq_true, if_false]
      by_cases hle : deadline ≤ t
      · rw [if_pos hle, Nat.max_eq_left hle]
      · rw [if_neg hle, ih (t + 1) (by omega)]
        have h1 : max (t + 1) deadline = deadline := Nat.max_eq_right (by omega)
        have h2 : max t deadline = deadline := Nat.max_eq_right (by omega)
        rw [h1, h2]
  exact fun t => H (deadline - t) t (Nat.le_refl _)

/-- When nobody cancels, the wait loop never ends in the cancelled state. -/
theorem waitFrom_no_cancel (pred can : Nat → Bool)
    (hc : ∀ s, can s = false) (deadline : Nat) :
    ∀ t, (waitFrom pred can deadline t).1 ≠ .cancelledOut := by
  have H : ∀ (fuel t : Nat), deadline - t ≤ fuel →
      (waitFrom pred can deadline t).1 ≠ .cancelledOut := by
    intro fuel
    induction fuel with
    | zero =>
      intro t hfuel
      have hle : deadline ≤ t := by omega
      rw [waitFrom_step, hc]
      simp only [Bool.false_eq_true, if_false]
      by_cases hpr : pred t
      · simp [hpr]
      · simp [hpr, hle]
    | succ n ih =>
      intro t hfuel
      rw [waitFrom_step, hc]
      simp only [Bool.false_eq_true, if_false]
      by_cases hpr : pred t
      · simp [hpr]
      · by_cases hle : deadline ≤ t
        · simp [hpr, hle]
        · simp only [hpr, Bool.false_eq_true, if_false, if_neg hle]
          exact ih (t + 1) (by omega)
  exact fun t => H (deadline - t) t (Nat.le_refl _)

/-- C9: a wait whose predicate never holds and which nobody cancels ends
in `TimedOut` at a tick no earlier than the deadline; the loop completes
at the very tick at which the predicate holds; and it can end cancelled
only if the cancel flag was actually set at some tick. -/
theorem claim_C9_wait_monitor (pred can : Nat → Bool) (deadline : Nat) :
    ((∀ s, pred s = false) → (∀ s, can s = false) →
      (waitFrom pred can deadline 0).1 = .timedOut ∧
        deadline ≤ (waitFrom pred can deadline 0).2) ∧
    (∀ t, can t = false → pred t = true →
      waitFrom pred can deadline t = (.completed, t)) ∧
    ((∀ s, can s = false) →
      ∀ t, (waitFrom pred can deadline t).1 ≠ .cancelledOut) := by
  refine ⟨?_, ?_, ?_⟩
  · intro hp hc
    rw [waitFrom_times_out pred can hp hc deadline 0]
    exact ⟨rfl, Nat.le_max_right 0 deadline⟩
  · intro t hcant hpredt
    rw [waitFrom_step, hcant, hpredt]
    simp
  · intro hc
    exact waitFrom_no_cancel pred can hc deadline

/-- C9 witness: with a never-true predicate and no cancellation the wait
times out at the deadline; a predicate true at the current tick completes
immediately; no cancellation means no cancelled outcome. -/
theorem claim_C9_wait_monitor_witness :
    ((waitFrom (fun _ => false) (fun _ => false) 3 0).1 = .timedOut ∧
      3 ≤ (waitFrom (fun _ => false) (fun _ => false) 3 0).2) ∧
    waitFrom (fun t => t == 1) (fun _ => false) 3 1 = (.completed, 1) ∧
    (waitFrom (fun _ => false) (fun _ => false) 3 2).1 ≠ .cancelledOut :=
  ⟨(claim_C9_wait_monitor (fun _ => false) (fun _ => false) 3).1
      (fun _ => rfl) (fun _ => rfl),
   (claim_C9_wait_monitor (fun t => t == 1) (fun _ => false) 3).2.1 1 rfl rfl,
   (claim_C9_wait_monitor (fun _ => false) (fun _ => false) 3).2.2
      (fun _ => rfl) 2⟩
